import Mathlib

/-!
Verification of the mydiet-backend HTTP service (src/index.ts).

The embedding models the three request handlers of the service —
POST /analyze-food, POST /register and POST /login — as pure Lean
functions. External collaborators are modelled as parameters:

* the generative-model call is an `Except String GenResult` argument
  (an `Except.error` stands for the SDK call throwing);
* the password-hashing primitive (`bcrypt.hash` / `bcrypt.compare`)
  is passed in as a function argument;
* the relational store is a `List UserRow` threaded through `register`,
  with Boolean flags standing for the driver throwing on a query;
* `JSON.parse` of the JavaScript runtime is modelled by `parseJson`,
  a fuel-bounded recursive-descent parser of the JSON grammar.

Response bodies are records with `Option` fields; `none` means the
field is absent from the JSON body the handler sends.
-/

/-- Opening-brace character, written by code point to keep JSON text readable. -/
def obrace : Char := Char.ofNat 123

/-- Closing-brace character. -/
def cbrace : Char := Char.ofNat 125

/-- JSON values as produced by `JSON.parse`. Numbers keep their raw lexeme
(the service never computes with them, it only relays them). -/
inductive Json where
  | null : Json
  | bool (b : Bool) : Json
  | num (lexeme : String) : Json
  | str (s : String) : Json
  | arr (items : List Json) : Json
  | obj (fields : List (String × Json)) : Json

/-- JSON whitespace. -/
def isJsonWs (c : Char) : Bool :=
  c = ' ' || c = '\n' || c = '\t' || c = '\r'

/-- Drop leading JSON whitespace. -/
def skipWs (cs : List Char) : List Char :=
  cs.dropWhile isJsonWs

/-- Value of a hexadecimal digit, if any. -/
def hexVal (c : Char) : Option Nat :=
  if '0' ≤ c ∧ c ≤ '9' then some (c.toNat - '0'.toNat)
  else if 'a' ≤ c ∧ c ≤ 'f' then some (c.toNat - 'a'.toNat + 10)
  else if 'A' ≤ c ∧ c ≤ 'F' then some (c.toNat - 'A'.toNat + 10)
  else none

/-- Parse the body of a JSON string literal (after the opening quote),
returning the decoded string and the remaining input. -/
def parseStrBody : List Char → List Char → Except String (String × List Char)
  | [], _ => .error "Unterminated string in JSON"
  | '"' :: rest, acc => .ok (String.mk acc.reverse, rest)
  | '\\' :: 'u' :: h1 :: h2 :: h3 :: h4 :: rest, acc =>
    match hexVal h1, hexVal h2, hexVal h3, hexVal h4 with
    | some a, some b, some c, some d =>
      parseStrBody rest (Char.ofNat (((a * 16 + b) * 16 + c) * 16 + d) :: acc)
    | _, _, _, _ => .error "Bad Unicode escape in JSON"
  | '\\' :: e :: rest, acc =>
    if e = '"' then parseStrBody rest ('"' :: acc)
    else if e = '\\' then parseStrBody rest ('\\' :: acc)
    else if e = '/' then parseStrBody rest ('/' :: acc)
    else if e = 'n' then parseStrBody rest ('\n' :: acc)
    else if e = 't' then parseStrBody rest ('\t' :: acc)
    else if e = 'r' then parseStrBody rest ('\r' :: acc)
    else if e = 'b' then parseStrBody rest (Char.ofNat 8 :: acc)
    else if e = 'f' then parseStrBody rest (Char.ofNat 12 :: acc)
    else .error "Bad escape in JSON string"
  | '\\' :: [], _ => .error "Unterminated string in JSON"
  | c :: rest, acc => parseStrBody rest (c :: acc)

/-- Split off a (possibly empty) run of decimal digits. -/
def takeDigits (cs : List Char) : List Char × List Char :=
  (cs.takeWhile Char.isDigit, cs.dropWhile Char.isDigit)

/-- Parse a JSON number lexeme (sign, integer part with no leading zeros,
optional fraction, optional exponent). -/
def parseNumber (cs : List Char) : Except String (String × List Char) :=
  let (sign, cs1) :=
    match cs with
    | '-' :: rest => (['-'], rest)
    | _ => ([], cs)
  match cs1 with
  | [] => .error "Unexpected end of JSON input"
  | d :: rest =>
    if ¬ d.isDigit then .error "Unexpected token in JSON" else
    let (intPart, cs2) :=
      if d = '0' then ([d], rest)
      else takeDigits cs1
    let (fracPart, cs3) :=
      match cs2 with
      | '.' :: r =>
        let (ds, r') := takeDigits r
        if ds.isEmpty then ([], cs2) else ('.' :: ds, r')
      | _ => ([], cs2)
    if fracPart.isEmpty ∧ cs3 ≠ cs2 then .error "Bad number in JSON" else
    let (expPart, cs4) :=
      match cs3 with
      | e :: r =>
        if e = 'e' ∨ e = 'E' then
          match r with
          | s :: r' =>
            if s = '+' ∨ s = '-' then
              let (ds, r'') := takeDigits r'
              if ds.isEmpty then ([], cs3) else (e :: s :: ds, r'')
            else
              let (ds, r'') := takeDigits r
              if ds.isEmpty then ([], cs3) else (e :: ds, r'')
          | [] => ([], cs3)
        else ([], cs3)
      | [] => ([], cs3)
    .ok (String.mk (sign ++ intPart ++ fracPart ++ expPart), cs4)

mutual

/-- Parse one JSON value. `fuel` bounds recursion depth; it is spent only
after consuming input, so `parseJson` supplies enough for any input. -/
def parseVal : Nat → List Char → Except String (Json × List Char)
  | 0, _ => .error "JSON nesting too deep"
  | fuel + 1, cs =>
    match skipWs cs with
    | [] => .error "Unexpected end of JSON input"
    | 'n' :: 'u' :: 'l' :: 'l' :: rest => .ok (Json.null, rest)
    | 't' :: 'r' :: 'u' :: 'e' :: rest => .ok (Json.bool true, rest)
    | 'f' :: 'a' :: 'l' :: 's' :: 'e' :: rest => .ok (Json.bool false, rest)
    | '"' :: rest =>
      match parseStrBody rest [] with
      | .ok (s, rest') => .ok (Json.str s, rest')
      | .error e => .error e
    | '[' :: rest =>
      (match skipWs rest with
       | ']' :: rest' => .ok (Json.arr [], rest')
       | cs' =>
         match parseVal fuel cs' with
         | .ok (v, rest') => parseArrRest fuel rest' [v]
         | .error e => .error e)
    | c :: rest =>
      if c = obrace then
        match skipWs rest with
        | cs' =>
          if cs'.head? = some cbrace then .ok (Json.obj [], cs'.tail)
          else
            match parseMember fuel cs' with
            | .ok (kv, rest') => parseObjRest fuel rest' [kv]
            | .error e => .error e
      else if c = '-' ∨ c.isDigit then
        match parseNumber (c :: rest) with
        | .ok (lex, rest') => .ok (Json.num lex, rest')
        | .error e => .error e
      else .error "Unexpected token in JSON"

/-- Parse the continuation of an array after its first elements: either a
closing bracket or a comma followed by another value. -/
def parseArrRest : Nat → List Char → List Json → Except String (Json × List Char)
  | 0, _, _ => .error "JSON nesting too deep"
  | fuel + 1, cs, acc =>
    match skipWs cs with
    | ']' :: rest => .ok (Json.arr acc.reverse, rest)
    | ',' :: rest =>
      match parseVal fuel rest with
      | .ok (v, rest') => parseArrRest fuel rest' (v :: acc)
      | .error e => .error e
    | _ => .error "Expected comma or closing bracket in JSON array"

/-- Parse one `"key": value` member of an object. -/
def parseMember : Nat → List Char → Except String ((String × Json) × List Char)
  | 0, _ => .error "JSON nesting too deep"
  | fuel + 1, cs =>
    match skipWs cs with
    | '"' :: rest =>
      match parseStrBody rest [] with
      | .ok (k, rest') =>
        (match skipWs rest' with
         | ':' :: rest'' =>
           match parseVal fuel rest'' with
           | .ok (v, rest3) => .ok ((k, v), rest3)
           | .error e => .error e
         | _ => .error "Expected colon in JSON object")
      | .error e => .error e
    | _ => .error "Expected string key in JSON object"

/-- Parse the continuation of an object after its first members: either a
closing brace or a comma followed by another member. -/
def parseObjRest : Nat → List Char → List (String × Json) → Except String (Json × List Char)
  | 0, _, _ => .error "JSON nesting too deep"
  | fuel + 1, cs, acc =>
    match skipWs cs with
    | [] => .error "Unexpected end of JSON input"
    | c :: rest =>
      if c = cbrace then .ok (Json.obj acc.reverse, rest)
      else if c = ',' then
        match parseMember fuel rest with
        | .ok (kv, rest') => parseObjRest fuel rest' (kv :: acc)
        | .error e => .error e
      else .error "Expected comma or closing brace in JSON object"

end

/-- Model of the JavaScript runtime primitive `JSON.parse`: parse one JSON
value, allowing surrounding whitespace, and reject trailing garbage. -/
def parseJson (s : String) : Except String Json :=
  match parseVal (s.length + 2) s.toList with
  | .ok (v, rest) =>
    if (skipWs rest).isEmpty then .ok v
    else .error "Unexpected non-whitespace character after JSON data"
  | .error e => .error e

/-- The upstream `generateContent` result as far as the handler reads it:
its optional `text` field, `none` standing for `undefined`. -/
structure GenResult where
  text : Option String
deriving Repr

/-- The multer upload: in-memory byte buffer plus MIME type
(`req.file.buffer`, `req.file.mimetype`). -/
structure UploadedFile where
  buffer : List Nat
  mimetype : String

/-- One row of the `users` table. -/
structure UserRow where
  id : Nat
  name : String
  email : String
  password : String

/-- The `user` object returned by a successful login: id, name and email
only — no password column. -/
structure UserOut where
  id : Nat
  name : String
  email : String

/-- A JSON response body. Each field is `some v` when the handler includes
it and `none` when it is absent from the body it sends. -/
structure Body where
  success : Option Bool := none
  error : Option String := none
  message : Option String := none
  details : Option String := none
  data : Option Json := none
  rawUpstream : Option GenResult := none
  rawText : Option String := none
  user : Option UserOut := none

/-- An HTTP response: status code plus JSON body. -/
structure HttpResponse where
  status : Nat
  body : Body

/-- The characters `String.prototype.trim` removes: ECMAScript WhiteSpace
and LineTerminator code points. -/
def isJsTrimWs (c : Char) : Bool :=
  c.toNat = 9 || c.toNat = 10 || c.toNat = 11 || c.toNat = 12 || c.toNat = 13 ||
  c.toNat = 32 || c.toNat = 160 || c.toNat = 8232 || c.toNat = 8233 || c.toNat = 65279

/-- Model of JavaScript `String.prototype.trim`: strip leading and trailing
whitespace. -/
def jsTrim (s : String) : String :=
  String.mk (((s.toList.dropWhile isJsTrimWs).reverse.dropWhile isJsTrimWs).reverse)

/-- Line 105 of index.ts: `result.text ? result.text.trim() : ''` — the
whole of this variant's response normalisation. -/
def normalizeText (text : Option String) : String :=
  match text with
  | some t => jsTrim t
  | none => ""

/-- The POST /analyze-food handler. `file` is `req.file`; `upstream` is the
outcome of the awaited `genAI.models.generateContent` call (`Except.error`
models the call throwing, caught by the outer catch). -/
def analyzeFood (file : Option UploadedFile) (upstream : Except String GenResult) :
    HttpResponse :=
  match file with
  | none => ⟨400, { error := some "No image file uploaded." }⟩
  | some _ =>
    match upstream with
    | .error msg =>
      ⟨500, { success := some false, error := some "Gagal menganalisis gambar.",
              details := some msg }⟩
    | .ok result =>
      let jsonText := normalizeText result.text
      if jsonText = "" then
        ⟨500, { success := some false, error := some "Model response was empty.",
                rawUpstream := some result }⟩
      else
        match parseJson jsonText with
        | .ok parsedData => ⟨200, { success := some true, data := some parsedData }⟩
        | .error parseMsg =>
          ⟨500, { success := some false, error := some "Gagal memparsing respons Gemini.",
                  details := some parseMsg, rawText := some jsonText }⟩

/-- Flags standing for the pg driver throwing on the handler's queries. -/
structure StoreBehavior where
  selectThrows : Bool
  insertThrows : Bool

/-- The POST /register handler. `hashFn` models `bcrypt.hash`; the handler
calls it at cost factor 10 as the source does. Returns the response and the
`users` table after the request. `none` or `""` inputs model JS-falsy body
fields. -/
def register (hashFn : String → Nat → String) (st : StoreBehavior)
    (db : List UserRow) (name email password : Option String) :
    HttpResponse × List UserRow :=
  match name, email, password with
  | some n, some e, some p =>
    if n = "" ∨ e = "" ∨ p = "" then
      (⟨400, { error := some "Semua field wajib diisi." }⟩, db)
    else if st.selectThrows then
      (⟨500, { error := some "Internal server error." }⟩, db)
    else if (db.filter (fun u => u.email = e)).length > 0 then
      (⟨400, { error := some "Email sudah digunakan." }⟩, db)
    else if st.insertThrows then
      (⟨500, { error := some "Internal server error." }⟩, db)
    else
      (⟨200, { success := some true, message := some "Register berhasil." }⟩,
       db ++ [⟨db.length + 1, n, e, hashFn p 10⟩])
  | _, _, _ => (⟨400, { error := some "Semua field wajib diisi." }⟩, db)

/-- The POST /login handler. `compareFn` models `bcrypt.compare`;
`selectThrows` models the pg driver throwing on the SELECT. -/
def login (compareFn : String → String → Bool) (selectThrows : Bool)
    (db : List UserRow) (email password : Option String) : HttpResponse :=
  match email, password with
  | some e, some p =>
    if e = "" ∨ p = "" then
      ⟨400, { error := some "Email dan password wajib diisi." }⟩
    else if selectThrows then
      ⟨500, { error := some "Internal server error." }⟩
    else
      match db.filter (fun u => u.email = e) with
      | [] => ⟨400, { error := some "Email tidak ditemukan." }⟩
      | u :: _ =>
        if compareFn p u.password then
          ⟨200, { success := some true, message := some "Login berhasil.",
                  user := some ⟨u.id, u.name, u.email⟩ }⟩
        else
          ⟨400, { error := some "Password salah." }⟩
  | _, _ => ⟨400, { error := some "Email dan password wajib diisi." }⟩

/-- Look a key up in a parsed JSON object (first binding wins, as in JS). -/
def getField (j : Json) (key : String) : Option Json :=
  match j with
  | Json.obj fields => fields.lookup key
  | _ => none

/-- Is this JSON value a number? -/
def isNumberJson : Json → Bool
  | Json.num _ => true
  | _ => false

/-- Is this JSON value a non-empty array whose elements are all strings? -/
def isNonEmptyStrList : Json → Bool
  | Json.arr (x :: xs) =>
    (x :: xs).all fun v =>
      match v with
      | Json.str _ => true
      | _ => false
  | _ => false

/-- The shape the spec promises for a successful analysis result: a numeric
`jumlah_kalori` and a non-empty list of strings in `bahan_utama`. -/
def validFoodResult (j : Json) : Bool :=
  (match getField j "jumlah_kalori" with
   | some v => isNumberJson v
   | none => false) &&
  (match getField j "bahan_utama" with
   | some v => isNonEmptyStrList v
   | none => false)

/-- A concrete uploaded file used to instantiate the theorems. -/
def demoFile : UploadedFile := ⟨[137, 80, 78, 71], "image/png"⟩

/-- A concrete stand-in for `bcrypt.hash`, used only to instantiate the
hash-function parameter in witnesses. -/
def demoHash (plain : String) (cost : Nat) : String :=
  "h" ++ toString cost ++ "$" ++ plain

/-- A concrete stand-in for `bcrypt.compare` matching `demoHash` at cost 10. -/
def demoCompare (plain hashed : String) : Bool :=
  demoHash plain 10 = hashed

/-- Shared helper: registering a present, fresh (name, email, password) with a
well-behaved store succeeds, returns the constant success envelope, and appends
one row whose password column is the hash at cost factor 10. -/
theorem register_fresh_email_spec
    (hashFn : String → Nat → String) (db : List UserRow) (n e p : String)
    (hn : n ≠ "") (he : e ≠ "") (hp : p ≠ "")
    (hfresh : ∀ u ∈ db, u.email ≠ e) :
    register hashFn ⟨false, false⟩ db (some n) (some e) (some p) =
      (⟨200, { success := some true, message := some "Register berhasil." }⟩,
       db ++ [⟨db.length + 1, n, e, hashFn p 10⟩]) := by
  have hfil : db.filter (fun u => u.email = e) = [] := by
    rw [List.filter_eq_nil_iff]
    intro u hu
    simp [hfresh u hu]
  simp [register, hn, he, hp, hfil]

/-- Claim C1 (counterexample): a valid image upload whose model reply is the
well-formed JSON text of the empty object is relayed as HTTP 200 with
success true, although the data has no numeric jumlah_kalori and no
non-empty bahan_utama string list — a silent empty success, contradicting
the claim. -/
theorem analyzeFood_silent_empty_success :
    (analyzeFood (some demoFile) (Except.ok ⟨some "\x7b\x7d"⟩)).status = 200 ∧
    (analyzeFood (some demoFile) (Except.ok ⟨some "\x7b\x7d"⟩)).body.success = some true ∧
    (analyzeFood (some demoFile) (Except.ok ⟨some "\x7b\x7d"⟩)).body.data =
      some (Json.obj []) ∧
    validFoodResult (Json.obj []) = false :=
  ⟨rfl, rfl, rfl, rfl⟩

/-- Claim C1 (amended): for every request, /analyze-food returns either
HTTP 200 with success true and a data field (holding whatever JSON the model
text parsed to, its shape unvalidated), or an explicit 400/500 error envelope
carrying an error field and not marked successful. -/
theorem analyzeFood_success_or_error_envelope
    (file : Option UploadedFile) (upstream : Except String GenResult) :
    ((analyzeFood file upstream).status = 200 ∧
       (analyzeFood file upstream).body.success = some true ∧
       (analyzeFood file upstream).body.data.isSome = true) ∨
    (((analyzeFood file upstream).status = 400 ∨ (analyzeFood file upstream).status = 500) ∧
       (analyzeFood file upstream).body.error.isSome = true ∧
       (analyzeFood file upstream).body.success ≠ some true) := by
  cases file with
  | none => simp [analyzeFood]
  | some f =>
    cases upstream with
    | error msg => simp [analyzeFood]
    | ok result =>
      by_cases h : normalizeText result.text = ""
      · simp [analyzeFood, h]
      · cases hp : parseJson (normalizeText result.text) with
        | ok v => simp [analyzeFood, h, hp]
        | error e => simp [analyzeFood, h, hp]

/-- Claim C2 (counterexample): a failing /register request (missing name) is
answered with a 400 envelope that has an error field but no success field at
all, so not every failure is converted to a \x7bsuccess:false, error,
details?\x7d envelope. -/
theorem register_validation_error_lacks_success_field :
    (register demoHash ⟨false, false⟩ [] none (some "a@x.com") (some "pw1")).1.status = 400 ∧
    (register demoHash ⟨false, false⟩ [] none (some "a@x.com") (some "pw1")).1.body.error =
      some "Semua field wajib diisi." ∧
    (register demoHash ⟨false, false⟩ [] none (some "a@x.com") (some "pw1")).1.body.success =
      none :=
  ⟨rfl, rfl, rfl⟩

/-- Claim C2 (amended): every handler boundary catches every modelled failure
and answers with a JSON envelope carrying an error field; the /analyze-food
500 envelopes additionally carry success:false, while the register/login
error envelopes and the 400 responses omit the success field. -/
theorem handlers_error_responses_carry_error_field :
    (∀ (file : Option UploadedFile) (upstream : Except String GenResult),
      ((analyzeFood file upstream).status ≠ 200 →
        (analyzeFood file upstream).body.error.isSome = true) ∧
      ((analyzeFood file upstream).status = 500 →
        (analyzeFood file upstream).body.success = some false)) ∧
    (∀ (hashFn : String → Nat → String) (st : StoreBehavior) (db : List UserRow)
       (name email password : Option String),
      (register hashFn st db name email password).1.status ≠ 200 →
      (register hashFn st db name email password).1.body.error.isSome = true) ∧
    (∀ (cmp : String → String → Bool) (sel : Bool) (db : List UserRow)
       (email password : Option String),
      (login cmp sel db email password).status ≠ 200 →
      (login cmp sel db email password).body.error.isSome = true) := by
  refine ⟨?_, ?_, ?_⟩
  · intro file upstream
    cases file with
    | none => simp [analyzeFood]
    | some f =>
      cases upstream with
      | error msg => simp [analyzeFood]
      | ok result =>
        by_cases h : normalizeText result.text = ""
        · simp [analyzeFood, h]
        · cases hp : parseJson (normalizeText result.text) with
          | ok v => simp [analyzeFood, h, hp]
          | error e => simp [analyzeFood, h, hp]
  · intro hashFn st db name email password h
    rcases name with _ | n <;> rcases email with _ | e <;> rcases password with _ | p <;>
      simp only [register] at h ⊢
    all_goals try rfl
    split_ifs at h ⊢ <;> first | rfl | exact absurd rfl h
  · intro cmp sel db email password h
    rcases email with _ | e <;> rcases password with _ | p <;>
      simp only [login] at h ⊢
    all_goals try rfl
    by_cases he : e = "" ∨ p = ""
    · simp [he] at h ⊢
    · simp [he] at h ⊢
      by_cases hsel : sel = true
      · simp [hsel] at h ⊢
      · simp [hsel] at h ⊢
        cases hfil : db.filter (fun x => x.email = e) with
        | nil => simp [hfil] at h ⊢
        | cons u rest =>
          simp [hfil] at h ⊢
          by_cases hc : cmp p u.password = true
          · simp [hc] at h
          · simp [hc] at h ⊢

/-- Claim C2 (witness): the amended theorem applied to one concrete failing
request per handler. -/
theorem handlers_error_responses_carry_error_field_witness :
    (register demoHash ⟨false, false⟩ [] none (some "a@x.com") (some "pw1")).1.status ≠ 200 ∧
    (register demoHash ⟨false, false⟩ [] none
        (some "a@x.com") (some "pw1")).1.body.error.isSome = true ∧
    (analyzeFood none (Except.error "quota exceeded")).status ≠ 200 ∧
    (analyzeFood none (Except.error "quota exceeded")).body.error.isSome = true ∧
    (login demoCompare false [] (some "a@x.com") none).status ≠ 200 ∧
    (login demoCompare false [] (some "a@x.com") none).body.error.isSome = true :=
  ⟨by decide,
   handlers_error_responses_carry_error_field.2.1 demoHash ⟨false, false⟩ []
     none (some "a@x.com") (some "pw1") (by decide),
   by decide,
   (handlers_error_responses_carry_error_field.1 none (Except.error "quota exceeded")).1
     (by decide),
   by decide,
   handlers_error_responses_carry_error_field.2.2 demoCompare false []
     (some "a@x.com") none (by decide)⟩

/-- Claim C3 (counterexample): on the fenced text the normalizer does not
produce the fence interior: this variant's normalisation is a bare trim with
no code-fence extraction. -/
theorem normalizeText_fenced_input_not_extracted :
    normalizeText (some "```json\n\x7b\"a\":1\x7d\n```") ≠ "\x7b\"a\":1\x7d" := by
  decide

/-- Claim C3 (amended): the normalizer only trims. On the fenced input it
returns the text unchanged (which then fails to parse as JSON); on the
already-clean input it returns the same trimmed string, and reapplying it
yields the same string again. -/
theorem normalizeText_trim_only_behaviour :
    normalizeText (some "```json\n\x7b\"a\":1\x7d\n```") = "```json\n\x7b\"a\":1\x7d\n```" ∧
    normalizeText (some "\x7b\"a\":1\x7d") = "\x7b\"a\":1\x7d" ∧
    normalizeText (some (normalizeText (some "\x7b\"a\":1\x7d"))) = "\x7b\"a\":1\x7d" ∧
    parseJson (normalizeText (some "```json\n\x7b\"a\":1\x7d\n```")) =
      Except.error "Unexpected token in JSON" :=
  ⟨rfl, rfl, rfl, rfl⟩

/-- Claim C4: registering a present, fresh email succeeds; registering the
same email again (any present name and password) is rejected with HTTP 400
and the duplicate-email message, leaving the table as after the first call. -/
theorem register_duplicate_email_rejected
    (hashFn : String → Nat → String) (db : List UserRow) (n e p n' p' : String)
    (hn : n ≠ "") (he : e ≠ "") (hp : p ≠ "") (hn' : n' ≠ "") (hp' : p' ≠ "")
    (hfresh : ∀ u ∈ db, u.email ≠ e) :
    (register hashFn ⟨false, false⟩ db (some n) (some e) (some p)).1.status = 200 ∧
    (register hashFn ⟨false, false⟩ db (some n) (some e) (some p)).1.body.success =
      some true ∧
    (register hashFn ⟨false, false⟩
        (register hashFn ⟨false, false⟩ db (some n) (some e) (some p)).2
        (some n') (some e) (some p')).1.status = 400 ∧
    (register hashFn ⟨false, false⟩
        (register hashFn ⟨false, false⟩ db (some n) (some e) (some p)).2
        (some n') (some e) (some p')).1.body.error = some "Email sudah digunakan." ∧
    (register hashFn ⟨false, false⟩
        (register hashFn ⟨false, false⟩ db (some n) (some e) (some p)).2
        (some n') (some e) (some p')).2 =
      (register hashFn ⟨false, false⟩ db (some n) (some e) (some p)).2 := by
  have h1 := register_fresh_email_spec hashFn db n e p hn he hp hfresh
  rw [h1]
  have hdup : ((db ++ [(⟨db.length + 1, n, e, hashFn p 10⟩ : UserRow)]).filter
      (fun u => u.email = e)).length > 0 := by
    rw [List.filter_append]
    simp
  refine ⟨rfl, rfl, ?_, ?_, ?_⟩ <;> simp [register, hn', he, hp', hdup]

/-- Claim C4 (witness): the duplicate-rejection theorem at a concrete pair of
calls with the same email against an empty table. -/
theorem register_duplicate_email_rejected_witness :
    (∀ u ∈ ([] : List UserRow), u.email ≠ "a@x.com") ∧
    ((register demoHash ⟨false, false⟩ [] (some "Ana") (some "a@x.com")
        (some "pw1")).1.status = 200 ∧
     (register demoHash ⟨false, false⟩ [] (some "Ana") (some "a@x.com")
        (some "pw1")).1.body.success = some true ∧
     (register demoHash ⟨false, false⟩
        (register demoHash ⟨false, false⟩ [] (some "Ana") (some "a@x.com") (some "pw1")).2
        (some "Bea") (some "a@x.com") (some "pw2")).1.status = 400 ∧
     (register demoHash ⟨false, false⟩
        (register demoHash ⟨false, false⟩ [] (some "Ana") (some "a@x.com") (some "pw1")).2
        (some "Bea") (some "a@x.com") (some "pw2")).1.body.error =
          some "Email sudah digunakan." ∧
     (register demoHash ⟨false, false⟩
        (register demoHash ⟨false, false⟩ [] (some "Ana") (some "a@x.com") (some "pw1")).2
        (some "Bea") (some "a@x.com") (some "pw2")).2 =
       (register demoHash ⟨false, false⟩ [] (some "Ana") (some "a@x.com") (some "pw1")).2) :=
  ⟨by simp,
   register_duplicate_email_rejected demoHash [] "Ana" "a@x.com" "pw1" "Bea" "pw2"
     (by decide) (by decide) (by decide) (by decide) (by decide) (by simp)⟩

/-- Claim C5: when the email matches a row but the hash comparison fails, the
login response is the 400 invalid-password envelope and never the
user-not-found one: email existence is decided before password verification. -/
theorem login_wrong_password_rejected
    (cmp : String → String → Bool) (db : List UserRow) (e p : String)
    (u : UserRow) (rest : List UserRow)
    (he : e ≠ "") (hpw : p ≠ "")
    (hfil : db.filter (fun x => x.email = e) = u :: rest)
    (hcmp : cmp p u.password = false) :
    login cmp false db (some e) (some p) = ⟨400, { error := some "Password salah." }⟩ ∧
    (login cmp false db (some e) (some p)).body.error ≠ some "Email tidak ditemukan." := by
  have h : login cmp false db (some e) (some p) =
      ⟨400, { error := some "Password salah." }⟩ := by
    simp [login, he, hpw, hfil, hcmp]
  refine ⟨h, ?_⟩
  rw [h]
  simp

/-- Claim C5 (witness): the wrong-password theorem at a concrete table holding
one registered user and a mismatching password. -/
theorem login_wrong_password_rejected_witness :
    demoCompare "wrong" (demoHash "pw1" 10) = false ∧
    login demoCompare false [⟨1, "Ana", "a@x.com", demoHash "pw1" 10⟩]
        (some "a@x.com") (some "wrong") =
      ⟨400, { error := some "Password salah." }⟩ ∧
    (login demoCompare false [⟨1, "Ana", "a@x.com", demoHash "pw1" 10⟩]
        (some "a@x.com") (some "wrong")).body.error ≠ some "Email tidak ditemukan." :=
  ⟨by decide,
   (login_wrong_password_rejected demoCompare [⟨1, "Ana", "a@x.com", demoHash "pw1" 10⟩]
     "a@x.com" "wrong" ⟨1, "Ana", "a@x.com", demoHash "pw1" 10⟩ []
     (by decide) (by decide) rfl (by decide)).1,
   (login_wrong_password_rejected demoCompare [⟨1, "Ana", "a@x.com", demoHash "pw1" 10⟩]
     "a@x.com" "wrong" ⟨1, "Ana", "a@x.com", demoHash "pw1" 10⟩ []
     (by decide) (by decide) rfl (by decide)).2⟩

/-- Claim C6: a successful registration stores exactly the hash computed at
cost factor 10 in the inserted row's password column, answers with the
constant success envelope, and that envelope is independent of the password
(so it carries neither the password nor its hash). -/
theorem register_success_stores_cost10_hash
    (hashFn : String → Nat → String) (db : List UserRow) (n e p : String)
    (hn : n ≠ "") (he : e ≠ "") (hp : p ≠ "")
    (hfresh : ∀ u ∈ db, u.email ≠ e) :
    register hashFn ⟨false, false⟩ db (some n) (some e) (some p) =
      (⟨200, { success := some true, message := some "Register berhasil." }⟩,
       db ++ [⟨db.length + 1, n, e, hashFn p 10⟩]) ∧
    ∀ (p' : String), p' ≠ "" →
      (register hashFn ⟨false, false⟩ db (some n) (some e) (some p')).1 =
        (register hashFn ⟨false, false⟩ db (some n) (some e) (some p)).1 := by
  refine ⟨register_fresh_email_spec hashFn db n e p hn he hp hfresh, ?_⟩
  intro p' hp'
  rw [register_fresh_email_spec hashFn db n e p hn he hp hfresh,
      register_fresh_email_spec hashFn db n e p' hn he hp' hfresh]

/-- Claim C6 (witness): the success theorem at one concrete registration. -/
theorem register_success_stores_cost10_hash_witness :
    ("pw1" : String) ≠ "" ∧
    register demoHash ⟨false, false⟩ [] (some "Ana") (some "a@x.com") (some "pw1") =
      (⟨200, { success := some true, message := some "Register berhasil." }⟩,
       [⟨1, "Ana", "a@x.com", demoHash "pw1" 10⟩]) :=
  ⟨by decide,
   by
    have h := (register_success_stores_cost10_hash demoHash [] "Ana" "a@x.com" "pw1"
      (by decide) (by decide) (by decide) (by simp)).1
    simpa using h⟩

/-- Claim C7: when the model's text output is absent or trims to the empty
string, the handler answers HTTP 500 with success false and includes the raw
upstream result object. -/
theorem analyzeFood_empty_model_output_500
    (f : UploadedFile) (result : GenResult)
    (h : normalizeText result.text = "") :
    analyzeFood (some f) (.ok result) =
      ⟨500, { success := some false, error := some "Model response was empty.",
              rawUpstream := some result }⟩ := by
  simp [analyzeFood, h]

/-- Claim C7 (witness): the empty-output theorem at an upstream reply whose
text field is undefined. -/
theorem analyzeFood_empty_model_output_500_witness :
    normalizeText (GenResult.mk none).text = "" ∧
    analyzeFood (some demoFile) (.ok (GenResult.mk none)) =
      ⟨500, { success := some false, error := some "Model response was empty.",
              rawUpstream := some (GenResult.mk none) }⟩ :=
  ⟨rfl, analyzeFood_empty_model_output_500 demoFile (GenResult.mk none) rfl⟩

/-- Claim C8: when the model's text output is non-empty after trimming but is
not valid JSON, the handler answers HTTP 500 with success false, includes the
parse failure message in details and the cleaned (trimmed) text in
rawResponse, and — being a total function — never crashes. -/
theorem analyzeFood_parse_failure_500
    (f : UploadedFile) (result : GenResult) (msg : String)
    (hne : normalizeText result.text ≠ "")
    (hp : parseJson (normalizeText result.text) = .error msg) :
    analyzeFood (some f) (.ok result) =
      ⟨500, { success := some false, error := some "Gagal memparsing respons Gemini.",
              details := some msg, rawText := some (normalizeText result.text) }⟩ := by
  simp [analyzeFood, hne, hp]

/-- Claim C8 (witness): the parse-failure theorem at a non-JSON model reply. -/
theorem analyzeFood_parse_failure_500_witness :
    normalizeText (GenResult.mk (some "oops")).text ≠ "" ∧
    parseJson (normalizeText (GenResult.mk (some "oops")).text) =
      Except.error "Unexpected token in JSON" ∧
    analyzeFood (some demoFile) (.ok (GenResult.mk (some "oops"))) =
      ⟨500, { success := some false, error := some "Gagal memparsing respons Gemini.",
              details := some "Unexpected token in JSON",
              rawText := some (normalizeText (GenResult.mk (some "oops")).text) }⟩ :=
  ⟨by decide, rfl,
   analyzeFood_parse_failure_500 demoFile (GenResult.mk (some "oops"))
     "Unexpected token in JSON" (by decide) rfl⟩

/-- Claim C9: a successful /analyze-food response relays exactly the parsed
value of the trimmed model text as data, with no shape validation: any text
that parses as JSON yields HTTP 200 with success true and that value. -/
theorem analyzeFood_relays_parsed_json_unvalidated
    (f : UploadedFile) (result : GenResult) (v : Json)
    (hp : parseJson (normalizeText result.text) = .ok v) :
    analyzeFood (some f) (.ok result) =
      ⟨200, { success := some true, data := some v }⟩ := by
  have hne : normalizeText result.text ≠ "" := by
    intro h0
    rw [h0, show parseJson "" = Except.error "Unexpected end of JSON input" from rfl] at hp
    exact Except.noConfusion hp
  simp [analyzeFood, hne, hp]

/-- Claim C9 (witness): the relay theorem at a parseable model reply that has
none of the three expected fields. -/
theorem analyzeFood_relays_parsed_json_unvalidated_witness :
    parseJson (normalizeText (GenResult.mk (some " \x7b\"foo\":\x5b\x5d\x7d ")).text) =
      Except.ok (Json.obj [("foo", Json.arr [])]) ∧
    analyzeFood (some demoFile) (.ok (GenResult.mk (some " \x7b\"foo\":\x5b\x5d\x7d "))) =
      ⟨200, { success := some true, data := some (Json.obj [("foo", Json.arr [])]) }⟩ :=
  ⟨rfl,
   analyzeFood_relays_parsed_json_unvalidated demoFile
     (GenResult.mk (some " \x7b\"foo\":\x5b\x5d\x7d ")) (Json.obj [("foo", Json.arr [])]) rfl⟩

/-- Claim C10: every /register request answered with a non-200 status leaves
the users table unchanged: no error path performs the INSERT. -/
theorem register_error_leaves_users_unchanged
    (hashFn : String → Nat → String) (st : StoreBehavior) (db : List UserRow)
    (name email password : Option String)
    (h : (register hashFn st db name email password).1.status ≠ 200) :
    (register hashFn st db name email password).2 = db := by
  rcases name with _ | n <;> rcases email with _ | e <;> rcases password with _ | p <;>
    simp only [register] at h ⊢
  split_ifs at h ⊢ <;> first | rfl | exact absurd rfl h

/-- Claim C10 (witness): the no-insert theorem at a concrete failing request
(missing password) against a one-row table. -/
theorem register_error_leaves_users_unchanged_witness :
    (register demoHash ⟨false, false⟩ [⟨1, "Bob", "b@x.com", "hh"⟩]
        (some "Ana") (some "a@x.com") none).1.status ≠ 200 ∧
    (register demoHash ⟨false, false⟩ [⟨1, "Bob", "b@x.com", "hh"⟩]
        (some "Ana") (some "a@x.com") none).2 = [⟨1, "Bob", "b@x.com", "hh"⟩] :=
  ⟨by decide,
   register_error_leaves_users_unchanged demoHash ⟨false, false⟩
     [⟨1, "Bob", "b@x.com", "hh"⟩] (some "Ana") (some "a@x.com") none (by decide)⟩
